import Mathlib

/-!
Verification of the Optional Capability Registry described in the
repository specification.  The repository fragment under version control
here contains only an example notebook (doc/examples/interactive_plots.ipynb)
that CALLS the registry (ps.extensions.register_plotly, ml.plotly, ...);
the registry implementation itself lives outside the provided sources.
All definitions below are therefore modelled from the specification text
(sections 3, 4, 7 of spec.md) and every claim is settled against this
spec-faithful model.
-/

namespace Pastas

/-- Modelled from the spec: the state of an optional third-party dependency
in the current environment.  The probe collapses a wrong-version install to
Unavailable (spec section 4.1: present but wrong version is treated as
Unavailable). -/
inductive DepState where
  | absent
  | wrongVersion
  | installed
deriving DecidableEq

/-- Modelled from the spec: result of the dependency probe,
Available or Unavailable with a human-readable reason. -/
inductive ProbeResult where
  | available
  | unavailable (reason : String)
deriving DecidableEq

/-- Modelled from the spec: the error taxonomy of section 7.
MissingDependencyError carries the missing package name and a remediation
hint; NotRegisteredError and AttributeNotFoundError carry the offending
extension name. -/
inductive RegError where
  | invalidName
  | missingDependency (package : String) (hint : String)
  | notRegistered (name : String)
  | attributeNotFound (name : String)
deriving DecidableEq

/-- Modelled from the spec: an Extension Descriptor
(name, dependency capability id, factory).  The factory is identified by a
numeric id; the namespace it builds records that id. -/
structure Descriptor where
  name : String
  dependency : String
  factoryId : Nat
deriving DecidableEq

/-- Modelled from the spec: an Extension Namespace, created lazily and
bound to exactly one host instance.  nsId is the identity of the object
(fresh at construction), hostId the bound host instance, factoryId the
factory that produced it. -/
structure ExtNamespace where
  nsId : Nat
  hostId : Nat
  factoryId : Nat
deriving DecidableEq

/-- Modelled from the spec: the process-wide registry state.
table is the registry table mapping names to descriptors, hooks the set of
retrieval hooks installed on the host type, cache the per-(instance, name)
lazily constructed namespaces, fresh the allocator for namespace object
identities. -/
structure RegState where
  table : List Descriptor
  hooks : List String
  cache : List (Nat × String × ExtNamespace)
  fresh : Nat
deriving DecidableEq

/-- Empty registry: process start state (spec section 3, Registry Table
lifecycle: empty at process start). -/
def RegState.empty : RegState := ⟨[], [], [], 0⟩

/-- Modelled from the spec: the dependency probe of section 4.1.  Total:
it never raises, it reports absence and version mismatch as Unavailable. -/
def probe (env : String → DepState) (cap : String) : ProbeResult :=
  match env cap with
  | .installed => .available
  | .absent => .unavailable ("package " ++ cap ++ " is not installed")
  | .wrongVersion => .unavailable ("package " ++ cap ++ " has an incompatible version")

/-- Modelled from the spec: lookup of a descriptor by extension name in the
registry table. -/
def lookupDescr (name : String) (t : List Descriptor) : Option Descriptor :=
  t.find? (fun d => d.name == name)

/-- Modelled from the spec: the pure query is_registered(name) of
section 4.2. -/
def is_registered (name : String) (s : RegState) : Bool :=
  (lookupDescr name s.table).isSome

/-- Modelled from the spec: the human-readable remediation hint carried by
MissingDependencyError, naming the package to install. -/
def remediationHint (dep name : String) : String :=
  "install the " ++ dep ++ " package to enable the " ++ name ++ " extension"

/-- Modelled from the spec: register(name, dependency, factory) of
section 4.2.  Validates the name, probes the dependency; on Unavailable it
fails with MissingDependencyError and changes nothing; on Available it
stores the descriptor (overwriting any previous one with the same name,
keeping names unique) and installs the retrieval hook on the host type. -/
def register (env : String → DepState) (name dep : String) (factoryId : Nat)
    (s : RegState) : Except RegError RegState :=
  if name.isEmpty then .error .invalidName
  else
    match probe env dep with
    | .unavailable _ =>
        .error (.missingDependency dep (remediationHint dep name))
    | .available =>
        .ok { s with
          table := ⟨name, dep, factoryId⟩ :: s.table.filter (fun d => d.name != name),
          hooks := if s.hooks.contains name then s.hooks else name :: s.hooks }

/-- Modelled from the spec: unregister(name) of section 4.2, removing the
descriptor and the retrieval hook, failing with NotRegisteredError when the
name has no active registration. -/
def unregister (name : String) (s : RegState) : Except RegError RegState :=
  if is_registered name s then
    .ok { s with
      table := s.table.filter (fun d => d.name != name),
      hooks := s.hooks.filter (fun n => n != name) }
  else .error (.notRegistered name)

/-- Modelled from the spec: lookup of the cached namespace for a
(host instance, extension name) pair. -/
def cacheLookup (inst : Nat) (name : String)
    (c : List (Nat × String × ExtNamespace)) : Option ExtNamespace :=
  (c.find? (fun e => e.1 == inst && e.2.1 == name)).map (fun e => e.2.2)

/-- Modelled from the spec: the Host Accessor Protocol of section 4.3.
Attribute lookup of name on host instance inst: intercepted when the name
is hooked and registered; the first access invokes the factory to build a
fresh namespace bound to the instance and caches it on the instance;
later accesses return the cached object unchanged.  A name matching no
registered extension fails with AttributeNotFoundError. -/
def getExtension (inst : Nat) (name : String) (s : RegState) :
    Except RegError (ExtNamespace × RegState) :=
  if s.hooks.contains name then
    match lookupDescr name s.table with
    | none => .error (.attributeNotFound name)
    | some d =>
      match cacheLookup inst name s.cache with
      | some ns => .ok (ns, s)
      | none =>
        let ns : ExtNamespace := ⟨s.fresh, inst, d.factoryId⟩
        .ok (ns, { s with cache := (inst, name, ns) :: s.cache, fresh := s.fresh + 1 })
  else .error (.attributeNotFound name)

/-- The state after an attempted registration: the new state on success,
the old state untouched on failure (register performs no partial state
change). -/
def registerOrKeep (env : String → DepState) (name dep : String) (fid : Nat)
    (s : RegState) : RegState :=
  match register env name dep fid s with
  | .ok s2 => s2
  | .error _ => s

/-- Every cached namespace is bound to the instance it is cached under
(spec section 3: bound to exactly one host instance at attachment time). -/
def cacheWF (s : RegState) : Bool :=
  s.cache.all (fun e => e.2.2.hostId == e.1)

/-- Modelled from the spec: the three representative namespace operations
of section 4.4. -/
inductive OpKind where
  | plot
  | results
  | diagnostics
deriving DecidableEq

/-- Modelled from the spec: named optional rendering parameters with
defaults (section 4.4). -/
structure Config where
  height : Option Nat
  width : Option Nat
deriving DecidableEq

/-- Modelled from the spec: a host instance owning its fitted data
(observation series, simulation, parameters, residuals), opaque to the
registry. -/
structure Host where
  hostId : Nat
  observations : List Int
  simulation : List Int
  parameters : List Int
  residuals : List Int
deriving DecidableEq

/-- Modelled from the spec: a figure object returned by a namespace
operation; figId is its object identity (fresh per call, no caching of
figures). -/
structure Figure where
  figId : Nat
  panels : List (List Int)
  height : Nat
  width : Nat
deriving DecidableEq

/-- Modelled from the spec: a namespace operation (plot, results,
diagnostics) of section 4.4.  It reads the fitted results of the host,
returns a brand new figure (identity drawn from the allocator), returns
the host unchanged, and has no other effect. -/
def renderOp (kind : OpKind) (h : Host) (cfg : Config) (alloc : Nat) :
    Figure × Host × Nat :=
  let panels :=
    match kind with
    | .plot => [h.observations, h.simulation]
    | .results => [h.parameters, h.residuals, h.simulation]
    | .diagnostics => [h.residuals]
  (⟨alloc, panels, cfg.height.getD 400, cfg.width.getD 600⟩, h, alloc + 1)

/-- An environment in which every optional package is installed. -/
def envAll : String → DepState := fun _ => .installed

/-- An environment in which every optional package is absent. -/
def envNone : String → DepState := fun _ => .absent

/-- An environment in which every optional package is present but has an
incompatible version. -/
def envWrong : String → DepState := fun _ => .wrongVersion

/-- Whether an attribute lookup (or any registry operation) succeeded. -/
def succeeds {α : Type} (r : Except RegError α) : Bool :=
  match r with
  | .ok _ => true
  | .error _ => false

/-- Registry state after registering the plotly extension from the empty
state in an environment where every package is installed. -/
def demoReg : RegState := ⟨[⟨"plotly", "plotly", 0⟩], ["plotly"], [], 0⟩

/-- The namespace produced by the first access of instance 5 on demoReg. -/
def demoNs : ExtNamespace := ⟨0, 5, 0⟩

/-- Registry state after that first access: the namespace is cached on
instance 5 and the identity allocator advanced. -/
def demoReg2 : RegState := ⟨[⟨"plotly", "plotly", 0⟩], ["plotly"], [(5, "plotly", demoNs)], 1⟩

/-- Registry state after re-registering the plotly extension with a second
factory (id 7) on top of demoReg: last registered wins. -/
def demoRegB : RegState := ⟨[⟨"plotly", "plotly", 7⟩], ["plotly"], [], 0⟩

/-- The namespace produced by the first access of instance 6 on demoReg2. -/
def demoNsB : ExtNamespace := ⟨1, 6, 0⟩

/-- Registry state after instances 5 and 6 have both accessed the plotly
extension. -/
def demoReg3 : RegState :=
  ⟨[⟨"plotly", "plotly", 0⟩], ["plotly"], [(6, "plotly", demoNsB), (5, "plotly", demoNs)], 2⟩

/-- Registry state after additionally registering the bokeh extension on
top of demoReg2. -/
def demoReg4 : RegState :=
  ⟨[⟨"bokeh", "bokeh", 1⟩, ⟨"plotly", "plotly", 0⟩], ["bokeh", "plotly"],
    [(5, "plotly", demoNs)], 1⟩

theorem lookupDescr_cons_self (name dep : String) (fid : Nat) (t : List Descriptor) :
    lookupDescr name (⟨name, dep, fid⟩ :: t) = some ⟨name, dep, fid⟩ := by
  simp [lookupDescr, List.find?_cons_of_pos]

theorem contains_after_hook (name : String) (l : List String) :
    (if l.contains name then l else name :: l).contains name = true := by
  by_cases h : l.contains name = true
  · rw [if_pos h]; exact h
  · rw [if_neg h]; simp [List.contains_cons]

theorem register_ok_elim (env : String → DepState) (name dep : String) (fid : Nat)
    (s s2 : RegState) (h : register env name dep fid s = .ok s2) :
    name.isEmpty = false ∧ probe env dep = .available ∧
      s2 = { s with
        table := ⟨name, dep, fid⟩ :: s.table.filter (fun d => d.name != name),
        hooks := if s.hooks.contains name then s.hooks else name :: s.hooks } := by
  unfold register at h
  split at h
  · exact absurd h (by simp)
  · rename_i hne
    cases hp : probe env dep with
    | unavailable r => rw [hp] at h; exact absurd h (by simp)
    | available =>
        rw [hp] at h
        injection h with h
        exact ⟨by simpa using hne, rfl, h.symm⟩

theorem cacheLookup_cons_self (inst : Nat) (name : String) (ns : ExtNamespace)
    (c : List (Nat × String × ExtNamespace)) :
    cacheLookup inst name ((inst, name, ns) :: c) = some ns := by
  simp [cacheLookup, List.find?_cons_of_pos]

theorem cacheLookup_cons_ne (i j : Nat) (n m : String) (ns : ExtNamespace)
    (c : List (Nat × String × ExtNamespace)) (h : ¬(j = i ∧ m = n)) :
    cacheLookup i n ((j, m, ns) :: c) = cacheLookup i n c := by
  have hp : ((j == i) && (m == n)) = false := by
    by_cases hj : j = i <;> by_cases hm : m = n <;> simp_all
  simp [cacheLookup, List.find?_cons, hp]

theorem getExtension_ok_elim (inst : Nat) (name : String) (s s2 : RegState)
    (ns : ExtNamespace) (h : getExtension inst name s = .ok (ns, s2)) :
    s.hooks.contains name = true ∧
    ∃ d, lookupDescr name s.table = some d ∧
      ((cacheLookup inst name s.cache = some ns ∧ s2 = s) ∨
       (cacheLookup inst name s.cache = none ∧ ns = ⟨s.fresh, inst, d.factoryId⟩ ∧
        s2 = { s with cache := (inst, name, ns) :: s.cache, fresh := s.fresh + 1 })) := by
  unfold getExtension at h
  split at h
  · rename_i hh
    cases hd : lookupDescr name s.table with
    | none => rw [hd] at h; exact absurd h (by simp)
    | some d =>
        rw [hd] at h
        cases hc : cacheLookup inst name s.cache with
        | some ns0 =>
            rw [hc] at h
            simp only [Except.ok.injEq, Prod.mk.injEq] at h
            obtain ⟨h3, h4⟩ := h
            subst h3
            subst h4
            exact ⟨hh, d, rfl, Or.inl ⟨rfl, rfl⟩⟩
        | none =>
            rw [hc] at h
            simp only [Except.ok.injEq, Prod.mk.injEq] at h
            obtain ⟨h3, h4⟩ := h
            subst h3
            subst h4
            exact ⟨hh, d, rfl, Or.inr ⟨rfl, rfl, rfl⟩⟩
  · exact absurd h (by simp)

theorem getExtension_cached (inst : Nat) (name : String) (s : RegState)
    (ns : ExtNamespace) (d : Descriptor) (hh : s.hooks.contains name = true)
    (hd : lookupDescr name s.table = some d)
    (hc : cacheLookup inst name s.cache = some ns) :
    getExtension inst name s = .ok (ns, s) := by
  have hh2 : name ∈ s.hooks := by simpa using hh
  simp [getExtension, hh2, hd, hc]

theorem getExtension_total_of_registered (inst : Nat) (name : String) (s : RegState)
    (d : Descriptor) (hh : s.hooks.contains name = true)
    (hd : lookupDescr name s.table = some d) :
    succeeds (getExtension inst name s) = true := by
  have hh2 : name ∈ s.hooks := by simpa using hh
  cases hc : cacheLookup inst name s.cache with
  | some ns => simp [getExtension, hh2, hd, hc, succeeds]
  | none => simp [getExtension, hh2, hd, hc, succeeds]

/-- C1: for every valid extension name, once register(name, dep, factory)
succeeds, is_registered(name) returns true and every host instance,
whatever its identity (so whether it was constructed before or after the
registration), resolves instance.name without an error. -/
theorem claim1_register_exposes (env : String → DepState) (name dep : String)
    (fid : Nat) (s s2 : RegState)
    (h : register env name dep fid s = .ok s2) :
    is_registered name s2 = true ∧
      ∀ inst : Nat, succeeds (getExtension inst name s2) = true := by
  obtain ⟨-, -, rfl⟩ := register_ok_elim env name dep fid s s2 h
  refine ⟨by simp [is_registered, lookupDescr_cons_self], ?_⟩
  intro inst
  exact getExtension_total_of_registered inst name _ _
    (contains_after_hook name s.hooks) (lookupDescr_cons_self name dep fid _)

/-- Witness for C1: registering plotly from the empty registry in a fully
installed environment; instance 9 then resolves the extension. -/
theorem claim1_witness :
    is_registered "plotly" demoReg = true ∧
      succeeds (getExtension 9 "plotly" demoReg) = true := by
  have h := claim1_register_exposes envAll "plotly" "plotly" 0 RegState.empty demoReg rfl
  exact ⟨h.1, h.2 9⟩

/-- C2: the first attribute access for an instance constructs the namespace
through the registered descriptor's factory, bound to that instance, and
caches it; a subsequent access on the same instance returns the identical
namespace object and leaves the state unchanged, so there is at most one
construction per (instance, extension) pair. -/
theorem claim2_lookup_cached_identity (inst : Nat) (name : String)
    (s s2 : RegState) (ns : ExtNamespace)
    (h : getExtension inst name s = .ok (ns, s2)) :
    getExtension inst name s2 = .ok (ns, s2) ∧
      (cacheLookup inst name s.cache = none →
        ∃ d, lookupDescr name s.table = some d ∧
          ns = ⟨s.fresh, inst, d.factoryId⟩) := by
  obtain ⟨hh, d, hd, hcase⟩ := getExtension_ok_elim inst name s s2 ns h
  rcases hcase with ⟨hc, rfl⟩ | ⟨hc, hns, rfl⟩
  · exact ⟨getExtension_cached inst name _ ns d hh hd hc,
      fun hnone => absurd hc (by simp [hnone])⟩
  · subst hns
    refine ⟨?_, fun _ => ⟨d, hd, rfl⟩⟩
    exact getExtension_cached inst name _ _ d hh hd
      (cacheLookup_cons_self inst name _ s.cache)

/-- Witness for C2: first and second access of instance 5 on the registry
holding the plotly extension. -/
theorem claim2_witness :
    getExtension 5 "plotly" demoReg2 = .ok (demoNs, demoReg2) ∧
      ∃ d, lookupDescr "plotly" demoReg.table = some d ∧
        demoNs = ⟨demoReg.fresh, 5, d.factoryId⟩ := by
  have h := claim2_lookup_cached_identity 5 "plotly" demoReg demoReg2 demoNs rfl
  exact ⟨h.1, h.2 rfl⟩

/-- C3: when the dependency probe reports Unavailable, register fails with
MissingDependencyError naming the missing package and carrying a
remediation hint, and performs no state change at all: after the failed
attempt the caller keeps the old registry table and host hooks unchanged
(no partial registration). -/
theorem claim3_register_unavailable_atomic (env : String → DepState)
    (name dep : String) (fid : Nat) (s : RegState) (r : String)
    (hname : name.isEmpty = false) (hp : probe env dep = .unavailable r) :
    register env name dep fid s =
        .error (.missingDependency dep (remediationHint dep name)) ∧
      registerOrKeep env name dep fid s = s := by
  have h1 : register env name dep fid s =
      .error (.missingDependency dep (remediationHint dep name)) := by
    unfold register
    rw [hp]
    simp [hname]
  exact ⟨h1, by simp [registerOrKeep, h1]⟩

/-- Witness for C3: attempting to register bokeh with the bokeh package
absent. -/
theorem claim3_witness :
    register envNone "bokeh" "bokeh" 1 RegState.empty =
        .error (.missingDependency "bokeh" (remediationHint "bokeh" "bokeh")) ∧
      registerOrKeep envNone "bokeh" "bokeh" 1 RegState.empty = RegState.empty :=
  claim3_register_unavailable_atomic envNone "bokeh" "bokeh" 1 RegState.empty
    ("package " ++ "bokeh" ++ " is not installed") rfl rfl

theorem countP_name_filter (name : String) (t : List Descriptor) :
    ((t.filter (fun d => d.name != name)).countP (fun d => d.name == name)) = 0 := by
  rw [List.countP_filter]
  apply List.countP_eq_zero.mpr
  intro d hd
  simp

theorem getExtension_fresh (inst : Nat) (name : String) (s : RegState)
    (d : Descriptor) (hh : s.hooks.contains name = true)
    (hd : lookupDescr name s.table = some d)
    (hc : cacheLookup inst name s.cache = none) :
    getExtension inst name s =
      .ok (⟨s.fresh, inst, d.factoryId⟩,
        ⟨s.table, s.hooks, (inst, name, ⟨s.fresh, inst, d.factoryId⟩) :: s.cache,
          s.fresh + 1⟩) := by
  have hh2 : name ∈ s.hooks := by simpa using hh
  simp [getExtension, hh2, hd, hc]

/-- C4: registering twice under the same name overwrites the earlier
registration: after a registration with factory f1 followed by one with
factory f2, the registry table holds exactly one descriptor under the name
(the name stays unique), it carries f2, and an attribute lookup with no
cached namespace for the pair builds its namespace from f2, not f1. -/
theorem claim4_reregistration_overwrites (env : String → DepState)
    (name dep1 dep2 : String) (f1 f2 : Nat) (s s1 s2 : RegState) (inst : Nat)
    (_h1 : register env name dep1 f1 s = .ok s1)
    (h2 : register env name dep2 f2 s1 = .ok s2)
    (hc : cacheLookup inst name s2.cache = none) :
    lookupDescr name s2.table = some ⟨name, dep2, f2⟩ ∧
      s2.table.countP (fun d => d.name == name) = 1 ∧
      ∃ ns s3, getExtension inst name s2 = .ok (ns, s3) ∧ ns.factoryId = f2 := by
  obtain ⟨-, -, rfl⟩ := register_ok_elim env name dep2 f2 s1 s2 h2
  refine ⟨lookupDescr_cons_self name dep2 f2 _, ?_, ?_⟩
  · simp [List.countP_cons, countP_name_filter]
  · exact ⟨_, _, getExtension_fresh inst name _ ⟨name, dep2, f2⟩
      (contains_after_hook name s1.hooks) (lookupDescr_cons_self name dep2 f2 _) hc, rfl⟩

/-- Witness for C4: registering plotly with factory 0 and then again with
factory 7; the lookup on instance 5 uses factory 7. -/
theorem claim4_witness :
    lookupDescr "plotly" demoRegB.table = some ⟨"plotly", "plotly", 7⟩ ∧
      demoRegB.table.countP (fun d => d.name == "plotly") = 1 ∧
      ∃ ns s3, getExtension 5 "plotly" demoRegB = .ok (ns, s3) ∧ ns.factoryId = 7 :=
  claim4_reregistration_overwrites envAll "plotly" "plotly" "plotly" 0 7
    RegState.empty demoReg demoRegB 5 rfl rfl rfl

/-- C5: with the dependency absent, the registration call itself fails with
MissingDependencyError, and an attribute lookup of the never-hooked name
on any host instance fails immediately with AttributeNotFoundError: no
namespace exists on which a plot, results or diagnostics call could be the
first point of failure. -/
theorem claim5_fail_fast (env : String → DepState) (name dep : String)
    (fid : Nat) (s : RegState) (r : String)
    (hname : name.isEmpty = false) (hp : probe env dep = .unavailable r)
    (hhook : s.hooks.contains name = false) :
    register env name dep fid s =
        .error (.missingDependency dep (remediationHint dep name)) ∧
      ∀ inst : Nat, getExtension inst name s = .error (.attributeNotFound name) := by
  constructor
  · unfold register
    rw [hp]
    simp [hname]
  · intro inst
    have hn : ¬(s.hooks.contains name = true) := by rw [hhook]; simp
    unfold getExtension
    rw [if_neg hn]

/-- Witness for C5: registering bokeh with the package absent fails at
register time; the lookup on instance 3 reports the attribute missing. -/
theorem claim5_witness :
    register envNone "bokeh" "bokeh" 1 RegState.empty =
        .error (.missingDependency "bokeh" (remediationHint "bokeh" "bokeh")) ∧
      getExtension 3 "bokeh" RegState.empty =
        .error (.attributeNotFound "bokeh") := by
  have h := claim5_fail_fast envNone "bokeh" "bokeh" 1 RegState.empty
    ("package " ++ "bokeh" ++ " is not installed") rfl rfl rfl
  exact ⟨h.1, h.2 3⟩

/-- C6: the probe is total: for every capability id it returns Available or
Unavailable with a reason, never an error; a dependency that is present
but has the wrong version is reported as Unavailable instead of
propagating a lower-level failure. -/
theorem claim6_probe_total (env : String → DepState) (cap : String) :
    (probe env cap = .available ∨ ∃ r, probe env cap = .unavailable r) ∧
      (env cap = .wrongVersion →
        probe env cap =
          .unavailable ("package " ++ cap ++ " has an incompatible version")) := by
  refine ⟨?_, ?_⟩
  · cases h : env cap with
    | installed => exact Or.inl (by simp [probe, h])
    | absent =>
        exact Or.inr ⟨"package " ++ cap ++ " is not installed", by simp [probe, h]⟩
    | wrongVersion =>
        exact Or.inr ⟨"package " ++ cap ++ " has an incompatible version",
          by simp [probe, h]⟩
  · intro hw
    simp [probe, hw]

/-- Witness for C6: probing plotly in an environment where it is installed
with an incompatible version. -/
theorem claim6_witness :
    (probe envWrong "plotly" = .available ∨
        ∃ r, probe envWrong "plotly" = .unavailable r) ∧
      probe envWrong "plotly" =
        .unavailable ("package " ++ "plotly" ++ " has an incompatible version") :=
  ⟨(claim6_probe_total envWrong "plotly").1,
    (claim6_probe_total envWrong "plotly").2 rfl⟩

theorem lookupDescr_filter_self (name : String) (t : List Descriptor) :
    lookupDescr name (t.filter (fun d => d.name != name)) = none := by
  unfold lookupDescr
  apply List.find?_eq_none.mpr
  intro d hd
  rcases List.mem_filter.mp hd with ⟨-, h2⟩
  simp only [bne_iff_ne, ne_eq] at h2
  simp [h2]

theorem contains_filter_self (name : String) (l : List String) :
    (l.filter (fun n => n != name)).contains name = false := by
  induction l with
  | nil => rfl
  | cons a l ih =>
      by_cases h : a = name
      · simp only [List.filter_cons, h, bne_self_eq_false, if_false]
        exact ih
      · simp only [List.filter_cons]
        rw [if_pos (by simp [h]), List.contains_cons]
        simp only [ih, Bool.or_false]
        simp [Ne.symm h]

theorem unregister_ok_elim (name : String) (s s2 : RegState)
    (h : unregister name s = .ok s2) :
    is_registered name s = true ∧
      s2 = ⟨s.table.filter (fun d => d.name != name),
        s.hooks.filter (fun n => n != name), s.cache, s.fresh⟩ := by
  unfold unregister at h
  split at h
  · rename_i hr
    injection h with h
    exact ⟨by simpa using hr, h.symm⟩
  · exact absurd h (by simp)

/-- C7: unregister(name) removes both the descriptor from the registry
table and the retrieval hook from the host type, so every subsequent
attribute lookup of the name on any instance fails with
AttributeNotFoundError; and unregister(name) fails with
NotRegisteredError when the name has no active registration. -/
theorem claim7_unregister (name : String) (s : RegState) :
    (∀ s2, unregister name s = .ok s2 →
      is_registered name s2 = false ∧ s2.hooks.contains name = false ∧
        ∀ inst : Nat, getExtension inst name s2 = .error (.attributeNotFound name)) ∧
      (is_registered name s = false →
        unregister name s = .error (.notRegistered name)) := by
  constructor
  · intro s2 h
    obtain ⟨-, rfl⟩ := unregister_ok_elim name s s2 h
    refine ⟨?_, contains_filter_self name s.hooks, ?_⟩
    · simp [is_registered, lookupDescr_filter_self]
    · intro inst
      have hn : ¬((s.hooks.filter (fun n => n != name)).contains name = true) := by
        rw [contains_filter_self]
        simp
      unfold getExtension
      rw [if_neg hn]
  · intro h
    simp [unregister, h]

/-- Witness for C7: unregistering plotly from the one-extension registry
empties it and instance 4 no longer resolves it; unregistering bokeh from
the empty registry reports it as not registered. -/
theorem claim7_witness :
    (is_registered "plotly" RegState.empty = false ∧
        RegState.empty.hooks.contains "plotly" = false ∧
        getExtension 4 "plotly" RegState.empty =
          .error (.attributeNotFound "plotly")) ∧
      unregister "bokeh" RegState.empty = .error (.notRegistered "bokeh") := by
  have h1 := (claim7_unregister "plotly" demoReg).1 RegState.empty rfl
  have h2 := (claim7_unregister "bokeh" RegState.empty).2 rfl
  exact ⟨⟨h1.1, h1.2.1, h1.2.2 4⟩, h2⟩

/-- C8: every namespace operation (plot, results, diagnostics) is pure
with respect to the host: it returns the host unchanged, returns a brand
new figure whose identity is the current allocator value, advances the
allocator by one, and a second call (of any kind, with any configuration)
never returns the same figure object, so figures are not cached. -/
theorem claim8_renderOp_pure (kind kind2 : OpKind) (h : Host)
    (cfg cfg2 : Config) (n : Nat) :
    (renderOp kind h cfg n).2.1 = h ∧
      (renderOp kind h cfg n).2.2 = n + 1 ∧
      (renderOp kind h cfg n).1.figId = n ∧
      (renderOp kind2 h cfg2 (renderOp kind h cfg n).2.2).1.figId ≠
        (renderOp kind h cfg n).1.figId := by
  cases kind <;> cases kind2 <;> simp [renderOp]

theorem cacheWF_lookup (s : RegState) (inst : Nat) (name : String)
    (ns : ExtNamespace) (hwf : cacheWF s = true)
    (hc : cacheLookup inst name s.cache = some ns) : ns.hostId = inst := by
  unfold cacheLookup at hc
  cases hf : s.cache.find? (fun e => e.1 == inst && e.2.1 == name) with
  | none => rw [hf] at hc; cases hc
  | some e =>
      rw [hf] at hc
      injection hc with hc
      have hmem := List.mem_of_find?_eq_some hf
      have hpred := List.find?_some hf
      have h1 : e.1 = inst := by
        have := ((Bool.and_eq_true _ _).mp hpred).1
        simpa using this
      have h2 : e.2.2.hostId = e.1 := by
        unfold cacheWF at hwf
        have := (List.all_eq_true.mp hwf) e hmem
        simpa using this
      rw [← hc, h2, h1]

theorem getExtension_preserves_wf (inst : Nat) (name : String) (s s2 : RegState)
    (ns : ExtNamespace) (hwf : cacheWF s = true)
    (h : getExtension inst name s = .ok (ns, s2)) : cacheWF s2 = true := by
  obtain ⟨-, d, -, hcase⟩ := getExtension_ok_elim inst name s s2 ns h
  rcases hcase with ⟨-, rfl⟩ | ⟨-, hns, rfl⟩
  · exact hwf
  · subst hns
    unfold cacheWF at hwf ⊢
    simp only [List.all_cons, Bool.and_eq_true]
    exact ⟨by simp, hwf⟩

theorem getExtension_ok_parts (inst : Nat) (name : String) (s s2 : RegState)
    (ns : ExtNamespace) (h : getExtension inst name s = .ok (ns, s2)) :
    s2.hooks = s.hooks ∧ s2.table = s.table ∧
      cacheLookup inst name s2.cache = some ns ∧
      ∀ i2 n2, (i2 ≠ inst ∨ n2 ≠ name) →
        cacheLookup i2 n2 s2.cache = cacheLookup i2 n2 s.cache := by
  obtain ⟨-, d, -, hcase⟩ := getExtension_ok_elim inst name s s2 ns h
  rcases hcase with ⟨hc, rfl⟩ | ⟨-, hns, rfl⟩
  · exact ⟨rfl, rfl, hc, fun _ _ _ => rfl⟩
  · subst hns
    refine ⟨rfl, rfl, cacheLookup_cons_self inst name _ s.cache, ?_⟩
    intro i2 n2 hne
    apply cacheLookup_cons_ne
    rintro ⟨ha, hb⟩
    rcases hne with hne | hne
    · exact hne ha.symm
    · exact hne hb.symm

/-- C9: for a registered extension name and two distinct host instances,
the namespace objects obtained from the two instances are distinct from
each other (each is bound to exactly one host instance), while each stays
identical across repeated access on its own instance. -/
theorem claim9_distinct_namespaces (i j : Nat) (name : String)
    (s s1 s2 : RegState) (ns1 ns2 : ExtNamespace)
    (hwf : cacheWF s = true) (hij : i ≠ j)
    (h1 : getExtension i name s = .ok (ns1, s1))
    (h2 : getExtension j name s1 = .ok (ns2, s2)) :
    ns1 ≠ ns2 ∧ getExtension i name s2 = .ok (ns1, s2) ∧
      getExtension j name s2 = .ok (ns2, s2) := by
  obtain ⟨hh1, d1, hd1, -⟩ := getExtension_ok_elim i name s s1 ns1 h1
  obtain ⟨ph1, pt1, pc1, -⟩ := getExtension_ok_parts i name s s1 ns1 h1
  obtain ⟨ph2, pt2, pc2, pp2⟩ := getExtension_ok_parts j name s1 s2 ns2 h2
  have hwf1 : cacheWF s1 = true := getExtension_preserves_wf i name s s1 ns1 hwf h1
  have hwf2 : cacheWF s2 = true := getExtension_preserves_wf j name s1 s2 ns2 hwf1 h2
  have hb1 : ns1.hostId = i := cacheWF_lookup s1 i name ns1 hwf1 pc1
  have hb2 : ns2.hostId = j := cacheWF_lookup s2 j name ns2 hwf2 pc2
  have hh : s2.hooks.contains name = true := by rw [ph2, ph1]; exact hh1
  have hd : lookupDescr name s2.table = some d1 := by rw [pt2, pt1]; exact hd1
  refine ⟨?_, ?_, ?_⟩
  · intro he
    apply hij
    rw [← hb1, he, hb2]
  · have hc : cacheLookup i name s2.cache = some ns1 := by
      rw [pp2 i name (Or.inl hij), pc1]
    exact getExtension_cached i name s2 ns1 d1 hh hd hc
  · exact getExtension_cached j name s2 ns2 d1 hh hd pc2

/-- Witness for C9: instances 5 and 6 access the plotly extension in turn;
their namespaces differ and each later access returns the cached one. -/
theorem claim9_witness :
    demoNs ≠ demoNsB ∧
      getExtension 5 "plotly" demoReg3 = .ok (demoNs, demoReg3) ∧
      getExtension 6 "plotly" demoReg3 = .ok (demoNsB, demoReg3) :=
  claim9_distinct_namespaces 5 6 "plotly" demoReg demoReg2 demoReg3 demoNs demoNsB
    rfl (by decide) rfl rfl

theorem find?_name_filter_other (name1 name2 : String) (hne : name1 ≠ name2)
    (t : List Descriptor) :
    (t.filter (fun d => d.name != name2)).find? (fun d => d.name == name1) =
      t.find? (fun d => d.name == name1) := by
  induction t with
  | nil => rfl
  | cons d t ih =>
      by_cases h : d.name = name2
      · rw [List.filter_cons_of_neg (by simp [h])]
        rw [List.find?_cons_of_neg _ (by simp [h]; exact Ne.symm hne)]
        exact ih
      · rw [List.filter_cons_of_pos (by simp [h])]
        by_cases h2 : d.name = name1
        · rw [List.find?_cons_of_pos _ (by simp [h2]),
            List.find?_cons_of_pos _ (by simp [h2])]
        · rw [List.find?_cons_of_neg _ (by simp [h2]),
            List.find?_cons_of_neg _ (by simp [h2])]
          exact ih

/-- C10: registering a second extension under a different name leaves the
earlier extension intact: the earlier descriptor lookup, hook presence and
every cached namespace are unchanged, the new name is registered, and
when the earlier name was registered and hooked both names resolve on
every instance afterwards. -/
theorem claim10_register_other_preserves (env : String → DepState)
    (name1 name2 dep2 : String) (f2 : Nat) (s s2 : RegState)
    (hne : name1 ≠ name2)
    (h : register env name2 dep2 f2 s = .ok s2) :
    lookupDescr name1 s2.table = lookupDescr name1 s.table ∧
      s2.hooks.contains name1 = s.hooks.contains name1 ∧
      s2.cache = s.cache ∧
      is_registered name2 s2 = true ∧
      (is_registered name1 s = true ∧ s.hooks.contains name1 = true →
        ∀ inst : Nat, succeeds (getExtension inst name1 s2) = true ∧
          succeeds (getExtension inst name2 s2) = true) := by
  obtain ⟨-, -, rfl⟩ := register_ok_elim env name2 dep2 f2 s s2 h
  have htable : lookupDescr name1
      (⟨name2, dep2, f2⟩ :: s.table.filter (fun d => d.name != name2)) =
      lookupDescr name1 s.table := by
    unfold lookupDescr
    rw [List.find?_cons_of_neg _ (by simp; exact Ne.symm hne)]
    exact find?_name_filter_other name1 name2 hne s.table
  have hhooks : (if s.hooks.contains name2 then s.hooks
      else name2 :: s.hooks).contains name1 = s.hooks.contains name1 := by
    by_cases hc2 : s.hooks.contains name2 = true
    · rw [if_pos hc2]
    · rw [if_neg hc2, List.contains_cons]
      simp [hne]
  refine ⟨htable, hhooks, rfl, by simp [is_registered, lookupDescr_cons_self], ?_⟩
  rintro ⟨hr1, hh1⟩ inst
  obtain ⟨d1, hd1⟩ := Option.isSome_iff_exists.mp (by simpa [is_registered] using hr1)
  exact ⟨getExtension_total_of_registered inst name1 _ d1
      (hhooks.trans hh1) (htable.trans hd1),
    getExtension_total_of_registered inst name2 _ ⟨name2, dep2, f2⟩
      (contains_after_hook name2 s.hooks) (lookupDescr_cons_self name2 dep2 f2 _)⟩

/-- Witness for C10: after plotly is registered and instance 5 has its
cached namespace, registering bokeh leaves the plotly cache entry in
place and instance 5 resolves both extensions. -/
theorem claim10_witness :
    demoReg4.cache = demoReg2.cache ∧
      is_registered "bokeh" demoReg4 = true ∧
      succeeds (getExtension 5 "plotly" demoReg4) = true ∧
      succeeds (getExtension 5 "bokeh" demoReg4) = true := by
  have h := claim10_register_other_preserves envAll "plotly" "bokeh" "bokeh" 1
    demoReg2 demoReg4 (by decide) rfl
  exact ⟨h.2.2.1, h.2.2.2.1, (h.2.2.2.2 ⟨rfl, rfl⟩ 5).1, (h.2.2.2.2 ⟨rfl, rfl⟩ 5).2⟩

end Pastas
